import Mathlib

/-!
Shallow embedding of `src/lib/segment/src/segment.rs` (the `Segment`
coordinator of a vector-search storage engine) together with models of its
four collaborator interfaces (identifier index, vector store, payload store,
query planner), whose concrete implementations are not part of this
repository and are therefore modelled from the specification's collaborator
contracts (spec section 6).

Machine integers (`SeqNumberType`, offsets) are modelled as `Nat`; vector
elements and scores are opaque data that the coordinator merely stores and
forwards, modelled as `Int`.  Rust `Result` is `Except`; a Rust panic
(`unwrap` / explicit `panic!` in `search`) is modelled as the `none` case of
an outer `Option` layer.
-/

set_option autoImplicit false

namespace Qdrant

abbrev SeqNumberType := Nat
abbrev PointIdType := Nat
abbrev PointOffsetType := Nat
abbrev VectorElementType := Int
abbrev PayloadKeyType := String
abbrev PayloadType := Int
abbrev ScoreType := Int

/-- `Filter` is opaque to the coordinator: it is only passed through to the
query planner. -/
abbrev Filter := Unit

/-- `SearchParams` is opaque to the coordinator: only passed to the planner. -/
abbrev SearchParams := Unit

/-- `TheMap` (Rust `BTreeMap`-backed payload map) modelled as an association
list with at most one binding per key, maintained by the operations below. -/
abbrev TheMap := List (PayloadKeyType × PayloadType)

/-- Association-list lookup: first binding of key `k`. -/
def alistGet {κ α : Type} [DecidableEq κ] (k : κ) : List (κ × α) → Option α
  | [] => none
  | p :: ps => if p.1 = k then some p.2 else alistGet k ps

/-- Remove every binding of key `k`. -/
def alistRemove {κ α : Type} [DecidableEq κ] (k : κ) : List (κ × α) → List (κ × α)
  | [] => []
  | p :: ps => if p.1 = k then alistRemove k ps else p :: alistRemove k ps

/-- Insert-or-replace the binding of key `k`. -/
def alistSet {κ α : Type} [DecidableEq κ] (k : κ) (v : α) (l : List (κ × α)) :
    List (κ × α) :=
  (k, v) :: alistRemove k l

/-- Errors of `OperationError` in `entry_point.rs`: `WrongVector` carries the
expected and received dimensions, `PointIdError` the missed point id. -/
inductive OperationError where
  | WrongVector (expected_dim : Nat) (received_dim : Nat)
  | PointIdError (missed_point_id : PointIdType)
  deriving DecidableEq, Repr

abbrev Result (α : Type) := Except OperationError α

/-- Modelled from the spec: the Identifier Index collaborator
(`internalId`, `externalId`, `setLink`, `drop`), whose concrete
implementation is not in this repository.  A partial bijection between
external point ids and internal offsets, kept as an association list. -/
structure IdMapper where
  mapping : List (PointIdType × PointOffsetType)
  deriving DecidableEq, Repr

def IdMapper.internal_id (m : IdMapper) (point_id : PointIdType) :
    Option PointOffsetType :=
  alistGet point_id m.mapping

/-- Reverse lookup: the external id linked to an internal offset. -/
def IdMapper.external_id (m : IdMapper) (offset : PointOffsetType) :
    Option PointIdType :=
  (m.mapping.find? (fun p => p.2 = offset)).map (fun p => p.1)

def IdMapper.set_link (m : IdMapper) (point_id : PointIdType)
    (offset : PointOffsetType) : IdMapper :=
  ⟨alistSet point_id offset m.mapping⟩

def IdMapper.drop (m : IdMapper) (point_id : PointIdType) : IdMapper :=
  ⟨alistRemove point_id m.mapping⟩

/-- Modelled from the spec: the Vector Store collaborator (`putVector`,
`getVector`, `delete`, `vectorDimension`, `vectorCount`, `deletedCount`),
whose concrete implementation is not in this repository.  Offsets are dense
list indices; allocation is append-only (spec section 4.1: the old offset is
never reused), deletion is a tombstone. -/
structure VectorStorage where
  dim : Nat
  vectors : List (Option (List VectorElementType))
  deriving DecidableEq, Repr

def VectorStorage.vector_dim (vs : VectorStorage) : Nat := vs.dim

/-- Append-only insertion: returns the fresh offset and the grown store. -/
def VectorStorage.put_vector (vs : VectorStorage)
    (vector : List VectorElementType) : PointOffsetType × VectorStorage :=
  (vs.vectors.length, ⟨vs.dim, vs.vectors ++ [some vector]⟩)

/-- Tombstone the slot at `offset` (no-op when out of range). -/
def VectorStorage.delete (vs : VectorStorage) (offset : PointOffsetType) :
    VectorStorage :=
  ⟨vs.dim, vs.vectors.set offset none⟩

def VectorStorage.get_vector (vs : VectorStorage) (offset : PointOffsetType) :
    Option (List VectorElementType) :=
  vs.vectors.getD offset none

/-- Modelled from the spec: the Payload Store collaborator (`assign`,
`assignAll`, `delete`, `drop` returning-and-clearing, `payload`), whose
concrete implementation is not in this repository.  One payload map per
internal offset, kept as an association list. -/
structure PayloadStorage where
  payloads : List (PointOffsetType × TheMap)
  deriving DecidableEq, Repr

def PayloadStorage.payloadOpt (ps : PayloadStorage) (offset : PointOffsetType) :
    Option TheMap :=
  alistGet offset ps.payloads

/-- `payload(offset) -> map`: the stored map, or the empty map when absent. -/
def PayloadStorage.payload (ps : PayloadStorage) (offset : PointOffsetType) :
    TheMap :=
  (ps.payloadOpt offset).getD []

/-- `assignAll(offset, map)`: replace the whole payload at `offset`. -/
def PayloadStorage.assign_all (ps : PayloadStorage) (offset : PointOffsetType)
    (m : TheMap) : PayloadStorage :=
  ⟨alistSet offset m ps.payloads⟩

/-- `assign(offset, key, value)`: merge one key into the payload at `offset`
(creating an entry from the empty map when absent). -/
def PayloadStorage.assign (ps : PayloadStorage) (offset : PointOffsetType)
    (key : PayloadKeyType) (value : PayloadType) : PayloadStorage :=
  ps.assign_all offset (alistSet key value (ps.payload offset))

/-- `delete(offset, key)`: remove one key from the payload at `offset`;
absent entry or key is not an error. -/
def PayloadStorage.delete (ps : PayloadStorage) (offset : PointOffsetType)
    (key : PayloadKeyType) : PayloadStorage :=
  match ps.payloadOpt offset with
  | some m => ps.assign_all offset (alistRemove key m)
  | none => ps

/-- `drop(offset) -> Option<map>`: return and clear the payload at `offset`. -/
def PayloadStorage.drop (ps : PayloadStorage) (offset : PointOffsetType) :
    Option TheMap × PayloadStorage :=
  (alistGet offset ps.payloads, ⟨alistRemove offset ps.payloads⟩)

/-- `(offset, score)` pair produced by the query planner. -/
structure ScoredPointOffset where
  idx : PointOffsetType
  score : ScoreType
  deriving DecidableEq, Repr

/-- `(external id, score)` pair returned to the caller by `search`. -/
structure ScoredPoint where
  idx : PointIdType
  score : ScoreType
  deriving DecidableEq, Repr

/-- Modelled from the spec: the Query Planner collaborator
(`search(query_vector, filter?, top_k, params?) -> sequence of
(offset, score)`), whose concrete implementation is not in this repository.
An arbitrary pure function of its four arguments. -/
structure QueryPlanner where
  plan : List VectorElementType → Option Filter → Nat → Option SearchParams →
    List ScoredPointOffset

/-- The `Segment` struct of `segment.rs`.  The `Arc<AtomicRefCell<dyn ...>>`
collaborator handles become plain values threaded through explicit state
passing. -/
structure Segment where
  version : SeqNumberType
  id_mapper : IdMapper
  vector_storage : VectorStorage
  payload_storage : PayloadStorage
  query_planner : QueryPlanner
  appendable_flag : Bool

/-- `Segment::update_vector`: drop-and-capture the old payload, tombstone the
old vector, append the new vector at a fresh offset, re-attach a captured
payload there; returns the fresh offset. -/
def Segment.update_vector (s : Segment) (old_iternal_id : PointOffsetType)
    (vector : List VectorElementType) : PointOffsetType × Segment :=
  let dropped := s.payload_storage.drop old_iternal_id
  let payload := dropped.1
  let s1 : Segment := { s with payload_storage := dropped.2 }
  let vs1 := s1.vector_storage.delete old_iternal_id
  let put := vs1.put_vector vector
  let new_internal_index := put.1
  let s2 : Segment := { s1 with vector_storage := put.2 }
  let s3 : Segment :=
    match payload with
    | some payload =>
        { s2 with
          payload_storage := s2.payload_storage.assign_all new_internal_index payload }
    | none => s2
  (new_internal_index, s3)

/-- `Segment::skip_by_version`: skip exactly when `version > op_num`;
otherwise set `version := op_num` and proceed. -/
def Segment.skip_by_version (s : Segment) (op_num : SeqNumberType) :
    Bool × Segment :=
  if s.version > op_num then (true, s)
  else (false, { s with version := op_num })

/-- `Segment::lookup_internal_id`: resolve an external id or fail with
`PointIdError`. -/
def Segment.lookup_internal_id (s : Segment) (point_id : PointIdType) :
    Result PointOffsetType :=
  match s.id_mapper.internal_id point_id with
  | some internal_id => Except.ok internal_id
  | none => Except.error (OperationError.PointIdError point_id)

/-- The `map`/`collect` loop of `Segment::search` translating planner
offsets to external ids; `none` models the panic on a missing external id. -/
def translateScored (m : IdMapper) :
    List ScoredPointOffset → Option (List ScoredPoint)
  | [] => some []
  | sp :: rest =>
    match m.external_id sp.idx with
    | none => none
    | some e =>
      match translateScored m rest with
      | none => none
      | some l => some (⟨e, sp.score⟩ :: l)

/-- `Segment::search` (`SegmentEntry` impl): dimension check, delegate to the
planner, translate offsets to external ids.  The outer `Option` is the panic
layer: `none` is the `Corrupter id_mapper` panic. -/
def Segment.search (s : Segment) (vector : List VectorElementType)
    (filter : Option Filter) (top : Nat) (params : Option SearchParams) :
    Option (Result (List ScoredPoint)) :=
  let expected_vector_dim := s.vector_storage.vector_dim
  if expected_vector_dim ≠ vector.length then
    some (Except.error
      (OperationError.WrongVector expected_vector_dim vector.length))
  else
    let internal_result := s.query_planner.plan vector filter top params
    match translateScored s.id_mapper internal_result with
    | some res => some (Except.ok res)
    | none => none

/-- `Segment::upsert_point`: version gate, dimension check, then either the
update path (existing point) or a fresh insert, followed by `set_link`. -/
def Segment.upsert_point (s : Segment) (op_num : SeqNumberType)
    (point_id : PointIdType) (vector : List VectorElementType) :
    Result Bool × Segment :=
  let gate := s.skip_by_version op_num
  if gate.1 then (Except.ok false, gate.2)
  else
    let s1 := gate.2
    let vector_dim := s1.vector_storage.vector_dim
    if vector_dim ≠ vector.length then
      (Except.error (OperationError.WrongVector vector_dim vector.length), s1)
    else
      let stored_internal_point := s1.id_mapper.internal_id point_id
      match stored_internal_point with
      | some existing_internal_id =>
        let upd := s1.update_vector existing_internal_id vector
        let s2 := upd.2
        let s3 : Segment :=
          { s2 with id_mapper := s2.id_mapper.set_link point_id upd.1 }
        (Except.ok true, s3)
      | none =>
        let put := s1.vector_storage.put_vector vector
        let s2 : Segment := { s1 with vector_storage := put.2 }
        let s3 : Segment :=
          { s2 with id_mapper := s2.id_mapper.set_link point_id put.1 }
        (Except.ok false, s3)

/-- `Segment::delete_point`: version gate; unknown id is `Ok(false)`, known
id tombstones the vector and drops the mapper link. -/
def Segment.delete_point (s : Segment) (op_num : SeqNumberType)
    (point_id : PointIdType) : Result Bool × Segment :=
  let gate := s.skip_by_version op_num
  if gate.1 then (Except.ok false, gate.2)
  else
    let s1 := gate.2
    match s1.id_mapper.internal_id point_id with
    | some internal_id =>
      let s2 : Segment :=
        { s1 with vector_storage := s1.vector_storage.delete internal_id }
      let s3 : Segment := { s2 with id_mapper := s2.id_mapper.drop point_id }
      (Except.ok true, s3)
    | none => (Except.ok false, s1)

/-- `Segment::set_full_payload`: version gate, resolve (an error when
unknown), replace the whole payload. -/
def Segment.set_full_payload (s : Segment) (op_num : SeqNumberType)
    (point_id : PointIdType) (full_payload : TheMap) : Result Bool × Segment :=
  let gate := s.skip_by_version op_num
  if gate.1 then (Except.ok false, gate.2)
  else
    let s1 := gate.2
    match s1.lookup_internal_id point_id with
    | Except.error e => (Except.error e, s1)
    | Except.ok internal_id =>
      (Except.ok true,
        { s1 with
          payload_storage :=
            s1.payload_storage.assign_all internal_id full_payload })

/-- `Segment::set_payload`: version gate, resolve, merge one key. -/
def Segment.set_payload (s : Segment) (op_num : SeqNumberType)
    (point_id : PointIdType) (key : PayloadKeyType) (payload : PayloadType) :
    Result Bool × Segment :=
  let gate := s.skip_by_version op_num
  if gate.1 then (Except.ok false, gate.2)
  else
    let s1 := gate.2
    match s1.lookup_internal_id point_id with
    | Except.error e => (Except.error e, s1)
    | Except.ok internal_id =>
      (Except.ok true,
        { s1 with
          payload_storage := s1.payload_storage.assign internal_id key payload })

/-- `Segment::delete_payload`: version gate, resolve, remove one key. -/
def Segment.delete_payload (s : Segment) (op_num : SeqNumberType)
    (point_id : PointIdType) (key : PayloadKeyType) : Result Bool × Segment :=
  let gate := s.skip_by_version op_num
  if gate.1 then (Except.ok false, gate.2)
  else
    let s1 := gate.2
    match s1.lookup_internal_id point_id with
    | Except.error e => (Except.error e, s1)
    | Except.ok internal_id =>
      (Except.ok true,
        { s1 with
          payload_storage := s1.payload_storage.delete internal_id key })

/-- `Segment::clear_payload`: version gate, resolve, drop the whole payload. -/
def Segment.clear_payload (s : Segment) (op_num : SeqNumberType)
    (point_id : PointIdType) : Result Bool × Segment :=
  let gate := s.skip_by_version op_num
  if gate.1 then (Except.ok false, gate.2)
  else
    let s1 := gate.2
    match s1.lookup_internal_id point_id with
    | Except.error e => (Except.error e, s1)
    | Except.ok internal_id =>
      (Except.ok true,
        { s1 with
          payload_storage := (s1.payload_storage.drop internal_id).2 })

/-- `Segment::vector` read accessor.  The outer `Option` is the panic layer:
`none` models the `unwrap` panic when the resolved offset holds no vector. -/
def Segment.vector (s : Segment) (point_id : PointIdType) :
    Option (Result (List VectorElementType)) :=
  match s.lookup_internal_id point_id with
  | Except.error e => some (Except.error e)
  | Except.ok internal_id =>
    match s.vector_storage.get_vector internal_id with
    | some v => some (Except.ok v)
    | none => none

/-- `Segment::payload` read accessor. -/
def Segment.payload (s : Segment) (point_id : PointIdType) : Result TheMap :=
  match s.lookup_internal_id point_id with
  | Except.error e => Except.error e
  | Except.ok internal_id => Except.ok (s.payload_storage.payload internal_id)

/-- `Segment::has_point`. -/
def Segment.has_point (s : Segment) (point_id : PointIdType) : Bool :=
  (s.id_mapper.internal_id point_id).isSome

/-- One mutating operation of the `SegmentEntry` surface, tagged with its
sequence number. -/
inductive Op where
  | upsert (op_num : SeqNumberType) (point_id : PointIdType)
      (vector : List VectorElementType)
  | deletePoint (op_num : SeqNumberType) (point_id : PointIdType)
  | setFullPayload (op_num : SeqNumberType) (point_id : PointIdType)
      (full_payload : TheMap)
  | setPayloadField (op_num : SeqNumberType) (point_id : PointIdType)
      (key : PayloadKeyType) (value : PayloadType)
  | deletePayloadField (op_num : SeqNumberType) (point_id : PointIdType)
      (key : PayloadKeyType)
  | clearPayload (op_num : SeqNumberType) (point_id : PointIdType)

/-- The sequence number of a mutating operation. -/
def Op.num : Op → SeqNumberType
  | .upsert n _ _ => n
  | .deletePoint n _ => n
  | .setFullPayload n _ _ => n
  | .setPayloadField n _ _ _ => n
  | .deletePayloadField n _ _ => n
  | .clearPayload n _ => n

/-- Dispatch one mutating operation to its `Segment` method. -/
def Segment.apply (s : Segment) : Op → Result Bool × Segment
  | .upsert n pid v => s.upsert_point n pid v
  | .deletePoint n pid => s.delete_point n pid
  | .setFullPayload n pid m => s.set_full_payload n pid m
  | .setPayloadField n pid k v => s.set_payload n pid k v
  | .deletePayloadField n pid k => s.delete_payload n pid k
  | .clearPayload n pid => s.clear_payload n pid

/-- Run a sequence of mutating operations left to right. -/
def applySeq (s : Segment) (ops : List Op) : Segment :=
  ops.foldl (fun acc op => (acc.apply op).2) s

/-! ## Concrete instances used as test vectors -/

/-- A planner that finds nothing; the mutators never consult it. -/
def emptyPlanner : QueryPlanner := ⟨fun _ _ _ _ => []⟩

/-- Fresh one-dimensional segment. -/
def segEmpty : Segment :=
  { version := 0, id_mapper := ⟨[]⟩, vector_storage := ⟨1, []⟩,
    payload_storage := ⟨[]⟩, query_planner := emptyPlanner,
    appendable_flag := true }

/-- Four-dimensional fresh segment. -/
def segDim4 : Segment :=
  { version := 0, id_mapper := ⟨[]⟩, vector_storage := ⟨4, []⟩,
    payload_storage := ⟨[]⟩, query_planner := emptyPlanner,
    appendable_flag := true }

/-- Segment at version 5 with no points. -/
def segVer5 : Segment :=
  { version := 5, id_mapper := ⟨[]⟩, vector_storage := ⟨1, []⟩,
    payload_storage := ⟨[]⟩, query_planner := emptyPlanner,
    appendable_flag := true }

/-- Segment holding point 1 at offset 0 with vector `[4]` and payload
`{a ↦ 2}`. -/
def segPoint : Segment :=
  { version := 0, id_mapper := ⟨[(1, 0)]⟩, vector_storage := ⟨1, [some [4]]⟩,
    payload_storage := ⟨[(0, [("a", 2)])]⟩, query_planner := emptyPlanner,
    appendable_flag := true }

/-- Segment whose planner reports offset 9 while the mapper is empty: the
index-corruption scenario. -/
def segOrphan : Segment :=
  { version := 0, id_mapper := ⟨[]⟩, vector_storage := ⟨1, []⟩,
    payload_storage := ⟨[]⟩, query_planner := ⟨fun _ _ _ _ => [⟨9, 5⟩]⟩,
    appendable_flag := true }

/-- Segment whose planner reports offset 0 with score 7, mapped to external
id 42. -/
def segSearch : Segment :=
  { version := 0, id_mapper := ⟨[(42, 0)]⟩, vector_storage := ⟨1, [some [1]]⟩,
    payload_storage := ⟨[]⟩, query_planner := ⟨fun _ _ _ _ => [⟨0, 7⟩]⟩,
    appendable_flag := true }

/-- Segment with a dangling mapper entry: point 3 resolves to offset 7 but
the vector store has no slot 7. -/
def segDangling : Segment :=
  { version := 0, id_mapper := ⟨[(3, 7)]⟩, vector_storage := ⟨1, []⟩,
    payload_storage := ⟨[]⟩, query_planner := emptyPlanner,
    appendable_flag := true }

/-! ## Helper lemmas -/

theorem alistGet_set_self {κ α : Type} [DecidableEq κ] (k : κ) (v : α)
    (l : List (κ × α)) : alistGet k (alistSet k v l) = some v := by
  simp [alistSet, alistGet]

theorem alistGet_remove_self {κ α : Type} [DecidableEq κ] (k : κ)
    (l : List (κ × α)) : alistGet k (alistRemove k l) = none := by
  induction l with
  | nil => rfl
  | cons p ps ih =>
    by_cases h : p.1 = k <;> simp [alistRemove, alistGet, h, ih]

theorem alistGet_remove_ne {κ α : Type} [DecidableEq κ] (k k' : κ)
    (l : List (κ × α)) (h : k' ≠ k) :
    alistGet k' (alistRemove k l) = alistGet k' l := by
  induction l with
  | nil => rfl
  | cons p ps ih =>
    by_cases h1 : p.1 = k
    · simp [alistRemove, alistGet, h1, Ne.symm h, ih]
    · simp [alistRemove, alistGet, h1, ih]

theorem alistGet_none_remove {κ α : Type} [DecidableEq κ] (k k' : κ)
    (l : List (κ × α)) (h : alistGet k' l = none) :
    alistGet k' (alistRemove k l) = none := by
  by_cases hk : k' = k
  · subst hk; exact alistGet_remove_self k' l
  · rw [alistGet_remove_ne k k' l hk]; exact h

theorem getD_set_none {α : Type} (l : List (Option α)) (i : Nat) :
    ((l.set i none)[i]?).getD none = none := by
  induction l generalizing i with
  | nil => rfl
  | cons x xs ih =>
    cases i with
    | zero => simp
    | succ j => simpa using ih j

theorem skip_by_version_stale (s : Segment) (op_num : SeqNumberType)
    (h : op_num < s.version) : s.skip_by_version op_num = (true, s) := by
  simp [Segment.skip_by_version, h]

theorem skip_by_version_go (s : Segment) (op_num : SeqNumberType)
    (h : s.version ≤ op_num) :
    s.skip_by_version op_num = (false, { s with version := op_num }) := by
  simp [Segment.skip_by_version, Nat.not_lt.mpr h]

/-- Every mutator returns `Ok(false)` and leaves the state untouched when
`op_num` is strictly below `version`. -/
theorem apply_stale_eq (s : Segment) (op : Op) (h : op.num < s.version) :
    s.apply op = (Except.ok false, s) := by
  cases op <;>
    simp_all [Op.num, Segment.apply, Segment.upsert_point, Segment.delete_point,
      Segment.set_full_payload, Segment.set_payload, Segment.delete_payload,
      Segment.clear_payload, skip_by_version_stale]

/-- The update path never touches the version field. -/
theorem update_vector_version (s : Segment) (old : PointOffsetType)
    (v : List VectorElementType) :
    ((s.update_vector old v).2).version = s.version := by
  simp only [Segment.update_vector]
  split <;> rfl

/-- Every mutator that passes the version gate ends with `version = op_num`. -/
theorem apply_go_version (s : Segment) (op : Op) (h : s.version ≤ op.num) :
    ((s.apply op).2).version = op.num := by
  cases op <;>
    (simp_all [Op.num, Segment.apply, Segment.upsert_point, Segment.delete_point,
      Segment.set_full_payload, Segment.set_payload, Segment.delete_payload,
      Segment.clear_payload, Segment.lookup_internal_id, skip_by_version_go,
      update_vector_version];
     (try split) <;> (try split) <;> simp_all [update_vector_version])

/-- One mutator always lands the version on `max version op_num`. -/
theorem apply_version_max (s : Segment) (op : Op) :
    ((s.apply op).2).version = max s.version op.num := by
  rcases Nat.lt_or_ge op.num s.version with h | h
  · rw [apply_stale_eq s op h]
    show s.version = max s.version op.num
    exact (max_eq_left (le_of_lt h)).symm
  · rw [apply_go_version s op h]
    exact (max_eq_right h).symm

theorem applySeq_version (s : Segment) (ops : List Op) :
    (applySeq s ops).version = (ops.map Op.num).foldl max s.version := by
  induction ops generalizing s with
  | nil => rfl
  | cons o rest ih =>
    show (applySeq ((s.apply o).2) rest).version = _
    rw [ih, apply_version_max]
    rfl

theorem le_foldl_max (l : List Nat) (a : Nat) : a ≤ l.foldl max a := by
  induction l generalizing a with
  | nil => exact Nat.le_refl a
  | cons n t ih => exact le_trans (le_max_left a n) (ih (max a n))

/-- When every planner offset has an external id, the translation loop
succeeds and relates input and output pointwise. -/
theorem translateScored_all_some (m : IdMapper) (l : List ScoredPointOffset)
    (h : ∀ sp ∈ l, (m.external_id sp.idx).isSome) :
    ∃ res, translateScored m l = some res ∧
      List.Forall₂
        (fun sp r => m.external_id sp.idx = some r.idx ∧ r.score = sp.score)
        l res := by
  induction l with
  | nil => exact ⟨[], rfl, List.Forall₂.nil⟩
  | cons sp rest ih =>
    have h1 := h sp (List.mem_cons_self sp rest)
    rcases him : m.external_id sp.idx with _ | e
    · rw [him] at h1; simp at h1
    · rcases ih (fun x hx => h x (List.mem_cons_of_mem sp hx)) with
        ⟨res, hres, hfa⟩
      refine ⟨⟨e, sp.score⟩ :: res, ?_, List.Forall₂.cons ⟨him, rfl⟩ hfa⟩
      simp [translateScored, him, hres]

/-- One planner offset without an external id makes the whole translation
loop fail (the panic case). -/
theorem translateScored_orphan (m : IdMapper) (l : List ScoredPointOffset)
    (sp : ScoredPointOffset) (hmem : sp ∈ l)
    (hnone : m.external_id sp.idx = none) : translateScored m l = none := by
  induction l with
  | nil => cases hmem
  | cons x rest ih =>
    rcases List.mem_cons.mp hmem with heq | htail
    · subst heq; simp [translateScored, hnone]
    · rcases hx : m.external_id x.idx with _ | e
      · simp [translateScored, hx]
      · simp [translateScored, hx, ih htail]

/-! ## Claims -/

/-- C1, counterexample: on a fresh segment, upserting point 1 at `op_num = 5`
and then replaying the very same upsert is not skipped: the replay returns
`Ok(true)` (not the skipped result `Ok(false)`) and moves the point's
internal offset from 0 to 1, so the state is not left unchanged either. -/
theorem replay_equal_version_reapplied :
    ((segEmpty.upsert_point 5 1 [3]).2.upsert_point 5 1 [3]).1 =
        Except.ok true ∧
    (segEmpty.upsert_point 5 1 [3]).2.id_mapper.internal_id 1 = some 0 ∧
    ((segEmpty.upsert_point 5 1 [3]).2.upsert_point 5 1 [3]).2.id_mapper.internal_id 1 =
        some 1 :=
  ⟨rfl, rfl, rfl⟩

/-- C1, amended: a mutating operation is skipped — returns `Ok(false)` with
the segment left exactly unchanged — precisely when its `op_num` is strictly
below the current version; a replay at `op_num` equal to the (already
bumped) version is applied again, not skipped. -/
theorem stale_strictly_below_version_skipped (s : Segment) (op : Op)
    (h : op.num < s.version) : s.apply op = (Except.ok false, s) :=
  apply_stale_eq s op h

/-- C1, witness: deleting point 1 at `op_num = 3` on a version-5 segment is
skipped and changes nothing. -/
theorem stale_strictly_below_version_skipped_witness :
    segVer5.apply (Op.deletePoint 3 1) = (Except.ok false, segVer5) :=
  stale_strictly_below_version_skipped segVer5 (Op.deletePoint 3 1) (by decide)

/-- C2, counterexample: on a fresh 4-dimensional segment, a non-stale upsert
with a 3-element vector fails with `WrongVector` as specified, but the
version is bumped from 0 to 1 by the gate before the dimension check, so the
segment's version does not stay as it was. -/
theorem upsert_dim_mismatch_version_bumped :
    (segDim4.upsert_point 1 7 [1, 2, 3]).1 =
        Except.error (OperationError.WrongVector 4 3) ∧
    (segDim4.upsert_point 1 7 [1, 2, 3]).2.version = 1 ∧
    segDim4.version = 0 :=
  ⟨rfl, rfl, rfl⟩

/-- C2, amended: a non-stale upsert with a wrongly-dimensioned vector fails
with `WrongVector{expected, received}` and leaves the identifier index, the
vector store and the payload store untouched, but sets `version := op_num`
(the version gate runs before the dimension check). -/
theorem upsert_dim_mismatch_state (s : Segment) (op_num : SeqNumberType)
    (point_id : PointIdType) (v : List VectorElementType)
    (hver : s.version ≤ op_num)
    (hdim : s.vector_storage.vector_dim ≠ v.length) :
    s.upsert_point op_num point_id v =
      (Except.error
        (OperationError.WrongVector s.vector_storage.vector_dim v.length),
       { s with version := op_num }) := by
  simp [Segment.upsert_point, skip_by_version_go s op_num hver, hdim]

/-- C2, witness: the amended statement at the concrete counterexample input. -/
theorem upsert_dim_mismatch_state_witness :
    segDim4.upsert_point 1 7 [1, 2, 3] =
      (Except.error (OperationError.WrongVector 4 3),
       { segDim4 with version := 1 }) :=
  upsert_dim_mismatch_state segDim4 1 7 [1, 2, 3] (by decide) (by decide)

/-- C3: `version` never decreases under any sequence of mutating operations,
and for a sequence applied in strictly increasing `op_num` order (the first
of which clears the version gate), the final version equals the maximum
`op_num` seen. -/
theorem version_monotone_and_tracks_max :
    (∀ (s : Segment) (ops : List Op), s.version ≤ (applySeq s ops).version) ∧
    (∀ (s : Segment) (o : Op) (rest : List Op),
      List.Chain' (fun a b => a < b) ((o :: rest).map Op.num) →
      s.version ≤ o.num →
      (applySeq s (o :: rest)).version =
        ((o :: rest).map Op.num).foldl max 0) := by
  constructor
  · intro s ops
    rw [applySeq_version]
    exact le_foldl_max _ _
  · intro s o rest hchain hle
    rw [applySeq_version]
    simp only [List.map_cons, List.foldl_cons]
    rw [max_eq_right hle, Nat.zero_max]

/-- C3, witness: a delete at 7 then an upsert at 9 on a version-5 segment
leave the version at 9, the maximum sequence number seen. -/
theorem version_monotone_and_tracks_max_witness :
    (applySeq segVer5 [Op.deletePoint 7 1, Op.upsert 9 2 [5]]).version =
      ([Op.deletePoint 7 1, Op.upsert 9 2 [5]].map Op.num).foldl max 0 :=
  version_monotone_and_tracks_max.2 segVer5 (Op.deletePoint 7 1)
    [Op.upsert 9 2 [5]]
    (by
      show List.Chain' (fun a b => a < b) [7, 9]
      exact List.chain'_cons.mpr ⟨by decide, List.chain'_singleton 9⟩)
    (by decide)

/-- C5: for a non-stale `delete_point`, an unknown point id yields the no-op
result `Ok(false)` (no error); a known id yields `Ok(true)`, after which the
point is gone from the identifier index, `vector` on it fails with
`PointIdError`, and the vector slot at its old offset is tombstoned. -/
theorem delete_point_semantics (s : Segment) (op_num : SeqNumberType)
    (point_id : PointIdType) (hver : s.version ≤ op_num) :
    (s.id_mapper.internal_id point_id = none →
      s.delete_point op_num point_id =
        (Except.ok false, { s with version := op_num })) ∧
    (∀ iid, s.id_mapper.internal_id point_id = some iid →
      (s.delete_point op_num point_id).1 = Except.ok true ∧
      (s.delete_point op_num point_id).2.has_point point_id = false ∧
      (s.delete_point op_num point_id).2.vector point_id =
        some (Except.error (OperationError.PointIdError point_id)) ∧
      (s.delete_point op_num point_id).2.vector_storage.get_vector iid =
        none) := by
  constructor
  · intro hnone
    simp [Segment.delete_point, skip_by_version_go s op_num hver, hnone]
  · intro iid hsome
    have hsome2 : alistGet point_id s.id_mapper.mapping = some iid := hsome
    simp [Segment.delete_point, skip_by_version_go s op_num hver, hsome2,
      Segment.has_point, Segment.vector, Segment.lookup_internal_id,
      IdMapper.drop, IdMapper.internal_id, alistGet_remove_self,
      VectorStorage.delete, VectorStorage.get_vector, getD_set_none]

/-- C5, witness: deleting the known point 1 of `segPoint`. -/
theorem delete_point_semantics_witness :
    (segPoint.delete_point 3 1).1 = Except.ok true ∧
    (segPoint.delete_point 3 1).2.has_point 1 = false ∧
    (segPoint.delete_point 3 1).2.vector 1 =
      some (Except.error (OperationError.PointIdError 1)) := by
  have h := (delete_point_semantics segPoint 3 1 (by decide)).2 0 rfl
  exact ⟨h.1, h.2.1, h.2.2.1⟩

/-- C6: `delete_point` never touches the payload store, whatever the point
id, sequence number or starting state. -/
theorem delete_point_preserves_payload_storage (s : Segment)
    (op_num : SeqNumberType) (point_id : PointIdType) :
    (s.delete_point op_num point_id).2.payload_storage = s.payload_storage := by
  rcases Nat.lt_or_ge op_num s.version with h | h
  · simp [Segment.delete_point, skip_by_version_stale s op_num h]
  · rcases hm : s.id_mapper.internal_id point_id with _ | iid <;>
      simp [Segment.delete_point, skip_by_version_go s op_num h, hm]

/-- C7: for a non-stale `set_full_payload`, an unknown point id is an error
(`PointIdError`, unlike delete) leaving the stores untouched; a known id has
its whole payload replaced by the given map, with result `Ok(true)`. -/
theorem set_full_payload_semantics (s : Segment) (op_num : SeqNumberType)
    (point_id : PointIdType) (m : TheMap) (hver : s.version ≤ op_num) :
    (s.id_mapper.internal_id point_id = none →
      s.set_full_payload op_num point_id m =
        (Except.error (OperationError.PointIdError point_id),
         { s with version := op_num })) ∧
    (∀ iid, s.id_mapper.internal_id point_id = some iid →
      (s.set_full_payload op_num point_id m).1 = Except.ok true ∧
      (s.set_full_payload op_num point_id m).2.payload_storage.payload iid =
        m) := by
  constructor
  · intro hnone
    simp [Segment.set_full_payload, skip_by_version_go s op_num hver,
      Segment.lookup_internal_id, hnone]
  · intro iid hsome
    simp [Segment.set_full_payload, skip_by_version_go s op_num hver,
      Segment.lookup_internal_id, hsome, PayloadStorage.assign_all,
      PayloadStorage.payload, PayloadStorage.payloadOpt, alistGet_set_self]

/-- C7, witness: replacing the payload of the known point 1 of `segPoint`. -/
theorem set_full_payload_semantics_witness :
    (segPoint.set_full_payload 2 1 [("b", 9)]).1 = Except.ok true ∧
    (segPoint.set_full_payload 2 1 [("b", 9)]).2.payload_storage.payload 0 =
      [("b", 9)] :=
  (set_full_payload_semantics segPoint 2 1 [("b", 9)] (by decide)).2 0 rfl

/-- C8: `search` fails with `WrongVector` exactly when the query dimension
differs from the store's; on a dimension match, when every planner offset
has an external id, it returns the planner's sequence with offsets replaced
by external ids and scores untouched, preserving order and length. -/
theorem search_dim_check_and_translation (s : Segment)
    (v : List VectorElementType) (f : Option Filter) (top : Nat)
    (p : Option SearchParams) :
    (s.vector_storage.vector_dim ≠ v.length →
      s.search v f top p =
        some (Except.error
          (OperationError.WrongVector s.vector_storage.vector_dim
            v.length))) ∧
    (s.vector_storage.vector_dim = v.length →
      (∀ sp ∈ s.query_planner.plan v f top p,
        (s.id_mapper.external_id sp.idx).isSome) →
      ∃ res, s.search v f top p = some (Except.ok res) ∧
        List.Forall₂
          (fun sp r =>
            s.id_mapper.external_id sp.idx = some r.idx ∧ r.score = sp.score)
          (s.query_planner.plan v f top p) res ∧
        res.length = (s.query_planner.plan v f top p).length) := by
  constructor
  · intro hne
    simp [Segment.search, hne]
  · intro heq hall
    rcases translateScored_all_some s.id_mapper _ hall with ⟨res, hres, hfa⟩
    refine ⟨res, ?_, hfa, (List.Forall₂.length_eq hfa).symm⟩
    simp [Segment.search, heq, hres]

/-- C8, witness: searching `segSearch` translates the planner's single
`(offset 0, score 7)` hit to external id 42. -/
theorem search_dim_check_and_translation_witness :
    ∃ res, segSearch.search [2] none 1 none = some (Except.ok res) ∧
      List.Forall₂
        (fun sp r =>
          segSearch.id_mapper.external_id sp.idx = some r.idx ∧
          r.score = sp.score)
        (segSearch.query_planner.plan [2] none 1 none) res ∧
      res.length = (segSearch.query_planner.plan [2] none 1 none).length :=
  (search_dim_check_and_translation segSearch [2] none 1 none).2 rfl
    (by decide)

/-- C9: with a matching query dimension, a planner offset that the
identifier index cannot translate makes `search` hit its panic branch
(modelled as `none`) instead of returning an error value; when every
reported offset has a live external id that branch is unreachable and
`search` returns `Ok`. -/
theorem search_orphan_offset_panics (s : Segment)
    (v : List VectorElementType) (f : Option Filter) (top : Nat)
    (p : Option SearchParams) (hdim : s.vector_storage.vector_dim = v.length) :
    ((∃ sp ∈ s.query_planner.plan v f top p,
        s.id_mapper.external_id sp.idx = none) →
      s.search v f top p = none) ∧
    ((∀ sp ∈ s.query_planner.plan v f top p,
        (s.id_mapper.external_id sp.idx).isSome) →
      ∃ res, s.search v f top p = some (Except.ok res)) := by
  constructor
  · rintro ⟨sp, hmem, hnone⟩
    simp [Segment.search, hdim,
      translateScored_orphan s.id_mapper _ sp hmem hnone]
  · intro hall
    rcases translateScored_all_some s.id_mapper _ hall with ⟨res, hres, _⟩
    exact ⟨res, by simp [Segment.search, hdim, hres]⟩

/-- C9, witness: `segOrphan`'s planner reports offset 9, unknown to the
identifier index, and `search` panics (`none`). -/
theorem search_orphan_offset_panics_witness :
    segOrphan.search [2] none 1 none = none :=
  (search_orphan_offset_panics segOrphan [2] none 1 none rfl).1
    ⟨⟨9, 5⟩, by decide, rfl⟩

/-- C10: the `vector` read accessor returns `PointIdError` when the
identifier index does not know the point; when the index resolves the point
to an offset holding no vector it panics (`none`, the `unwrap`); only when
the offset holds a vector does it return it. -/
theorem vector_accessor_semantics (s : Segment) (point_id : PointIdType) :
    (s.id_mapper.internal_id point_id = none →
      s.vector point_id =
        some (Except.error (OperationError.PointIdError point_id))) ∧
    (∀ iid, s.id_mapper.internal_id point_id = some iid →
      (s.vector_storage.get_vector iid = none →
        s.vector point_id = none) ∧
      (∀ w, s.vector_storage.get_vector iid = some w →
        s.vector point_id = some (Except.ok w))) := by
  constructor
  · intro hnone
    simp [Segment.vector, Segment.lookup_internal_id, hnone]
  · intro iid hsome
    constructor
    · intro hn
      simp [Segment.vector, Segment.lookup_internal_id, hsome, hn]
    · intro w hw
      simp [Segment.vector, Segment.lookup_internal_id, hsome, hw]

/-- C10, witness: `segDangling` maps point 3 to offset 7 with no stored
vector there, and the accessor panics (`none`). -/
theorem vector_accessor_semantics_witness : segDangling.vector 3 = none :=
  ((vector_accessor_semantics segDangling 3).2 7 rfl).1 rfl

/-- C4: a non-stale, correctly-dimensioned upsert of a point already in the
identifier index returns the replaced result `Ok(true)`, relinks the point
to the fresh offset at the end of the vector store (distinct from the old
offset), and afterwards the payload read through the point is what it was
before the upsert while the vector read through the point is the new
vector.  The last two hypotheses are the spec's store invariants: the
mapped offset holds a live slot and the fresh offset carries no payload. -/
theorem upsert_existing_point_replaces_vector_keeps_payload
    (s : Segment) (op_num : SeqNumberType) (point_id : PointIdType)
    (v : List VectorElementType) (old : PointOffsetType)
    (hver : s.version ≤ op_num)
    (hdim : s.vector_storage.vector_dim = v.length)
    (hmap : s.id_mapper.internal_id point_id = some old)
    (hold : old < s.vector_storage.vectors.length)
    (hfresh :
      s.payload_storage.payloadOpt s.vector_storage.vectors.length = none) :
    (s.upsert_point op_num point_id v).1 = Except.ok true ∧
    (s.upsert_point op_num point_id v).2.id_mapper.internal_id point_id =
      some s.vector_storage.vectors.length ∧
    old ≠ s.vector_storage.vectors.length ∧
    (s.upsert_point op_num point_id v).2.payload point_id =
      s.payload point_id ∧
    (s.upsert_point op_num point_id v).2.vector point_id =
      some (Except.ok v) := by
  have hmap2 : alistGet point_id s.id_mapper.mapping = some old := hmap
  have hdim2 : s.vector_storage.dim = v.length := hdim
  have hfresh2 :
      alistGet s.vector_storage.vectors.length s.payload_storage.payloads =
        none := hfresh
  have hrem :
      alistGet s.vector_storage.vectors.length
        (alistRemove old s.payload_storage.payloads) = none :=
    alistGet_none_remove old _ _ hfresh2
  rcases hcap : alistGet old s.payload_storage.payloads with _ | pm <;>
    refine ⟨?_, ?_, Nat.ne_of_lt hold, ?_, ?_⟩ <;>
    simp [Segment.upsert_point, skip_by_version_go s op_num hver, hdim,
      VectorStorage.vector_dim, Segment.update_vector, PayloadStorage.drop,
      VectorStorage.delete, VectorStorage.put_vector,
      PayloadStorage.assign_all, IdMapper.set_link, IdMapper.internal_id,
      Segment.payload, Segment.vector, Segment.lookup_internal_id,
      PayloadStorage.payload, PayloadStorage.payloadOpt,
      VectorStorage.get_vector, hmap2, hdim2, hcap, alistGet_set_self,
      List.length_set, hrem]

/-- C4, witness: re-upserting point 1 of `segPoint` with the new vector
`[8]` reports replaced, keeps the payload readable through the point, and
serves the new vector. -/
theorem upsert_existing_point_replaces_vector_keeps_payload_witness :
    (segPoint.upsert_point 3 1 [8]).1 = Except.ok true ∧
    (segPoint.upsert_point 3 1 [8]).2.payload 1 = segPoint.payload 1 ∧
    (segPoint.upsert_point 3 1 [8]).2.vector 1 = some (Except.ok [8]) := by
  have h :=
    upsert_existing_point_replaces_vector_keeps_payload segPoint 3 1 [8] 0
      (by decide) rfl rfl (by decide) rfl
  exact ⟨h.1, h.2.2.2.1, h.2.2.2.2⟩

end Qdrant
